import Mathlib

/-!
Verification of the secret-manager HTTP service (two near-duplicate Go
source files, `main.go` and the unnamed duplicate).

Modelling choices, shared by every claim below:

* Go strings are byte sequences; we embed them as `ByteStr := List Nat`
  (each element is one byte).  The Go conversion `string(data)` from a
  byte slice to a string is then the identity, as in Go.
* The process environment is a per-call map `ByteStr → Option ByteStr`.
* Each upstream HTTP interaction in `GetSecret` is the chain
  `http.NewRequest` / `http.DefaultClient.Do` / `ioutil.ReadAll` /
  `json.Unmarshal`; its outcome is an oracle `FetchResult` recording at
  which step the chain failed, or the parsed JSON fields on success.
  `json.Unmarshal` into a Go struct leaves absent fields at their zero
  value, so a parsed JSON object is a record of `Option` fields and the
  zero-value defaulting is made explicit by `unmarshalSecret`.
* `base64.StdEncoding.DecodeString` is implemented concretely
  (`base64Decode`): input in four-character quanta, padding only in the
  final quantum, carriage returns and newlines ignored, failure on any
  other character outside the standard alphabet — as in Go's non-strict
  standard decoder.
* `GetSecret` is a pure function of the per-call oracle world, so it can
  hold no state between calls; `GetSecretT` is the same function
  instrumented with the list of observable events (outbound HTTP calls
  and log lines) that the call emits, in order.
-/

/-- A Go string: a sequence of bytes. -/
abbrev ByteStr : Type := List Nat

/-- Bytes of an ASCII string literal, for concrete inputs. -/
def bs (s : String) : ByteStr := s.data.map Char.toNat

/-- Embedding of `getEnv` from `main.go`: the value for an environment
variable, or the fallback if not found.  The ambient `syscall.Getenv` is
the explicit map `env`. -/
def getEnv (env : ByteStr → Option ByteStr) (name fallback : ByteStr) : ByteStr :=
  match env name with
  | none => fallback
  | some value => value

/-- Embedding of the `SecretGetter` struct of `main.go`. -/
structure SecretGetter where
  GoogleCloudProject : ByteStr

/-- Parsed fields of the token-endpoint JSON body, after a successful
`json.Unmarshal`; `none` means the field is absent from the JSON (Go
leaves the struct field at its zero value `""`). -/
structure TokenJson where
  access_token : Option ByteStr

/-- Parsed fields of the nested `payload` JSON object. -/
structure PayloadJson where
  data : Option ByteStr

/-- Parsed fields of the secret-endpoint JSON body, after a successful
`json.Unmarshal`; `none` means the field is absent (Go leaves the struct
field at its zero value). -/
structure SecretJson where
  error : Option Int
  status : Option ByteStr
  payload : Option PayloadJson

/-- The secret-response Go struct of `main.go` (nested `Payload.Data`
flattened to one field). -/
structure SecretResponse where
  error : Int
  status : ByteStr
  payloadData : ByteStr

/-- Zero-value defaulting performed by `json.Unmarshal` into the
secret-response struct: absent fields become `0`, `""`, `""`. -/
def unmarshalSecret (sj : SecretJson) : SecretResponse :=
  { error := sj.error.getD 0
  , status := sj.status.getD []
  , payloadData := ((sj.payload.getD { data := none }).data).getD [] }

/-- Outcome of one upstream interaction: the step of the
`NewRequest` / `Do` / `ReadAll` / `Unmarshal` chain that failed, or the
parsed JSON fields. -/
inductive FetchResult (α : Type) where
  | reqError
  | netError
  | readError
  | jsonError
  | parsed (a : α)
deriving DecidableEq

/-- The per-call behaviour of everything outside the program: the
environment and the two upstream endpoints.  The secret endpoint's
behaviour may depend on the requested name and on the bearer token the
program presents. -/
structure World where
  env : ByteStr → Option ByteStr
  tokenFetch : FetchResult TokenJson
  secretFetch : ByteStr → ByteStr → FetchResult SecretJson

/-- Value of a standard base64 symbol byte: `A`–`Z`, `a`–`z`, `0`–`9`,
`+`, `/`. -/
def b64Index (c : Nat) : Option Nat :=
  if 65 ≤ c ∧ c ≤ 90 then some (c - 65)
  else if 97 ≤ c ∧ c ≤ 122 then some (c - 71)
  else if 48 ≤ c ∧ c ≤ 57 then some (c + 4)
  else if c = 43 then some 62
  else if c = 47 then some 63
  else none

/-- Decode four-character base64 quanta; padding (`=`, byte 61) is legal
only in the final quantum. -/
def decodeGroups : List Nat → Option (List Nat)
  | [] => some []
  | c1 :: c2 :: c3 :: c4 :: rest =>
    match b64Index c1, b64Index c2 with
    | some i1, some i2 =>
      if c3 = 61 then
        if c4 = 61 ∧ rest = [] then some [i1 * 4 + i2 / 16] else none
      else
        match b64Index c3 with
        | some i3 =>
          if c4 = 61 then
            if rest = [] then
              some [i1 * 4 + i2 / 16, (i2 % 16) * 16 + i3 / 4]
            else none
          else
            match b64Index c4 with
            | some i4 =>
              (decodeGroups rest).map
                (fun tl => (i1 * 4 + i2 / 16) ::
                  ((i2 % 16) * 16 + i3 / 4) :: ((i3 % 4) * 64 + i4) :: tl)
            | none => none
        | none => none
    | _, _ => none
  | _ => none

/-- Embedding of `base64.StdEncoding.DecodeString`: Go's standard
decoder first discards carriage returns and newlines, then decodes
properly padded four-character quanta; `none` is a `CorruptInputError`. -/
def base64Decode (s : ByteStr) : Option (List Nat) :=
  decodeGroups (s.filter (fun c => decide (c ≠ 13 ∧ c ≠ 10)))

/-- Embedding of `SecretGetter.GetSecret` from `main.go`.  Each early
`return fallback` of the source is one branch here; the per-call
behaviour of the environment and the two endpoints is the explicit
`World` argument.  The final `string(data)` is the identity on bytes. -/
def GetSecret (w : World) (sg : SecretGetter) (name fallback : ByteStr) : ByteStr :=
  if sg.GoogleCloudProject = [] then
    getEnv w.env name fallback
  else
    match w.tokenFetch with
    | .reqError => fallback
    | .netError => fallback
    | .readError => fallback
    | .jsonError => fallback
    | .parsed tokenResponse =>
      let accessToken := tokenResponse.access_token.getD []
      match w.secretFetch name accessToken with
      | .reqError => fallback
      | .netError => fallback
      | .readError => fallback
      | .jsonError => fallback
      | .parsed secretJson =>
        let secretResponse := unmarshalSecret secretJson
        if secretResponse.error ≠ 0 then fallback
        else
          match base64Decode secretResponse.payloadData with
          | none => fallback
          | some data => data

/-- One observable event of a `GetSecret` call: an outbound HTTP request
to the token endpoint or to the secret endpoint, a `fmt.Println(err)`
line for some error value, or the formatted
`error %d - status %s` log line. -/
inductive Event where
  | httpToken
  | httpSecret
  | logErr
  | logErrorStatus (code : Int) (status : ByteStr)
deriving DecidableEq

/-- Whether an event is an outbound HTTP request. -/
def Event.isHttp : Event → Bool
  | .httpToken => true
  | .httpSecret => true
  | _ => false

/-- The same `GetSecret` embedding, instrumented with the ordered list
of observable events the call emits.  `http.DefaultClient.Do` is
attempted (hence an HTTP event occurs) in every branch except when the
preceding `http.NewRequest` already failed. -/
def GetSecretT (w : World) (sg : SecretGetter) (name fallback : ByteStr) :
    ByteStr × List Event :=
  if sg.GoogleCloudProject = [] then
    (getEnv w.env name fallback, [])
  else
    match w.tokenFetch with
    | .reqError => (fallback, [.logErr])
    | .netError => (fallback, [.httpToken, .logErr])
    | .readError => (fallback, [.httpToken, .logErr])
    | .jsonError => (fallback, [.httpToken, .logErr])
    | .parsed tokenResponse =>
      let accessToken := tokenResponse.access_token.getD []
      match w.secretFetch name accessToken with
      | .reqError => (fallback, [.httpToken, .logErr])
      | .netError => (fallback, [.httpToken, .httpSecret, .logErr])
      | .readError => (fallback, [.httpToken, .httpSecret, .logErr])
      | .jsonError => (fallback, [.httpToken, .httpSecret, .logErr])
      | .parsed secretJson =>
        let secretResponse := unmarshalSecret secretJson
        if secretResponse.error ≠ 0 then
          (fallback,
            [.httpToken, .httpSecret,
              .logErrorStatus secretResponse.error secretResponse.status])
        else
          match base64Decode secretResponse.payloadData with
          | none => (fallback, [.httpToken, .httpSecret, .logErr])
          | some data => (data, [.httpToken, .httpSecret])

/-- The instrumented function computes the same value as `GetSecret`. -/
theorem GetSecretT_fst (w : World) (sg : SecretGetter) (name fallback : ByteStr) :
    (GetSecretT w sg name fallback).1 = GetSecret w sg name fallback := by
  unfold GetSecretT GetSecret
  by_cases hp : sg.GoogleCloudProject = []
  · simp [hp]
  · simp only [hp, if_false]
    cases w.tokenFetch with
    | reqError => rfl
    | netError => rfl
    | readError => rfl
    | jsonError => rfl
    | parsed tr =>
      simp only
      cases w.secretFetch name (tr.access_token.getD []) with
      | reqError => rfl
      | netError => rfl
      | readError => rfl
      | jsonError => rfl
      | parsed sj =>
        simp only
        by_cases he : (unmarshalSecret sj).error ≠ 0
        · simp [he]
        · simp only [he, if_false]
          cases base64Decode (unmarshalSecret sj).payloadData with
          | none => rfl
          | some data => rfl

/-- The successful remote path of `GetSecret`, as a partial outcome:
`some` exactly when the token fetch parses, the secret fetch parses, the
unmarshalled error code is zero and the payload base64-decodes. -/
def remoteOutcome (w : World) (name : ByteStr) : Option ByteStr :=
  match w.tokenFetch with
  | .parsed tokenResponse =>
    match w.secretFetch name (tokenResponse.access_token.getD []) with
    | .parsed secretJson =>
      let secretResponse := unmarshalSecret secretJson
      if secretResponse.error ≠ 0 then none
      else base64Decode secretResponse.payloadData
    | _ => none
  | _ => none

/-- Embedding of `SecretGetter.GetSecret` from the unnamed duplicate
source file; its body is byte-for-byte the same Go code as in
`main.go`, so the transcription coincides. -/
def GetSecretDup (w : World) (sg : SecretGetter) (name fallback : ByteStr) : ByteStr :=
  if sg.GoogleCloudProject = [] then
    getEnv w.env name fallback
  else
    match w.tokenFetch with
    | .reqError => fallback
    | .netError => fallback
    | .readError => fallback
    | .jsonError => fallback
    | .parsed tokenResponse =>
      let accessToken := tokenResponse.access_token.getD []
      match w.secretFetch name accessToken with
      | .reqError => fallback
      | .netError => fallback
      | .readError => fallback
      | .jsonError => fallback
      | .parsed secretJson =>
        let secretResponse := unmarshalSecret secretJson
        if secretResponse.error ≠ 0 then fallback
        else
          match base64Decode secretResponse.payloadData with
          | none => fallback
          | some data => data

/-- Lowercase hexadecimal digit byte, as Go's JSON encoder emits in
`\u00XX` escapes. -/
def hexDigit (n : Nat) : Nat :=
  if n < 10 then 48 + n else 87 + n

/-- Escaping of one single-byte rune (an ASCII byte) by Go's
`json.Marshal` string encoder: quote, backslash, newline, carriage
return and tab get two-byte escapes; other control bytes and the
HTML-escaped `<`, `>`, `&` become `\u00XX`; the remaining ASCII bytes
pass through.  Go's sequence-level handling of bytes at `0x80` and
above — multi-byte runes pass through, except that U+2028 and U+2029
are escaped and invalid UTF-8 is replaced by the escape of U+FFFD — is
not modelled byte-wise, so the theorems below apply this encoder only
to bytes satisfying `plainByte`, where it agrees with Go
byte-for-byte. -/
def jsonEscapeByte (b : Nat) : List Nat :=
  if b = 34 then [92, 34]
  else if b = 92 then [92, 92]
  else if b = 10 then [92, 110]
  else if b = 13 then [92, 114]
  else if b = 9 then [92, 116]
  else if b < 32 ∨ b = 60 ∨ b = 62 ∨ b = 38 then
    [92, 117, 48, 48, hexDigit (b / 16), hexDigit (b % 16)]
  else [b]

/-- Escaping of a whole string by Go's `json.Marshal` string encoder,
faithful on strings of bytes satisfying `plainByte`. -/
def jsonEscape (s : ByteStr) : ByteStr :=
  (s.map jsonEscapeByte).flatten

/-- A plain ASCII byte: one that Go's JSON string encoder passes
through unchanged.  Bytes at `0x80` and above are excluded — Go decides
those at the level of UTF-8 sequences, escaping U+2028 and U+2029 and
replacing invalid UTF-8 with U+FFFD. -/
def plainByte (b : Nat) : Prop :=
  32 ≤ b ∧ b ≤ 127 ∧ b ≠ 34 ∧ b ≠ 92 ∧ b ≠ 60 ∧ b ≠ 62 ∧ b ≠ 38

instance (b : Nat) : Decidable (plainByte b) := by
  unfold plainByte; infer_instance

/-- Embedding of `json.Marshal` applied to the handler's anonymous
response struct with fields tagged `name` and `value`, faithful when
both fields consist of `plainByte` bytes. -/
def jsonMarshalNameValue (name value : ByteStr) : ByteStr :=
  bs "\x7b\"name\":\"" ++ jsonEscape name ++ bs "\",\"value\":\"" ++
    jsonEscape value ++ bs "\"\x7d"

/-- The `json.Marshal` call as the handler sees it: a fallible external
call.  For the actual encoder use `jsonMarshalOk`. -/
abbrev MarshalOracle : Type := ByteStr → ByteStr → Option ByteStr

/-- The actual `json.Marshal`: on a struct of two plain strings it never
fails. -/
def jsonMarshalOk : MarshalOracle :=
  fun name value => some (jsonMarshalNameValue name value)

/-- An inbound HTTP request, reduced to what the handler inspects.
`Header.Get "secret"` returns the empty string when the header is
absent, so `secretHeader` is that returned string and the absent and
empty cases coincide, as in Go. -/
structure Request where
  method : ByteStr
  secretHeader : ByteStr

/-- The response the handler writes: status code, `Content-Type` header
if set, and body bytes. -/
structure Response where
  status : Nat
  contentType : Option ByteStr
  body : ByteStr
deriving DecidableEq

/-- Embedding of `getSecretHandler` from `main.go`.  The second
component counts the calls made to `SecretGetter.GetSecret`; the
`json.Marshal` external call is the explicit `marshal` oracle. -/
def getSecretHandler (marshal : MarshalOracle) (w : World)
    (secretGetter : SecretGetter) (rq : Request) : Response × Nat :=
  if rq.method ≠ bs "GET" then
    ({ status := 405, contentType := none, body := [] }, 0)
  else
    let secretName := rq.secretHeader
    if secretName = [] then
      ({ status := 400, contentType := none, body := [] }, 0)
    else
      match marshal secretName (GetSecret w secretGetter secretName (bs "default")) with
      | none => ({ status := 500, contentType := none, body := [] }, 1)
      | some bytes =>
        ({ status := 200, contentType := some (bs "application/json"),
           body := bytes }, 1)

/-- Embedding of `getSecretHandler` from the unnamed duplicate source
file: identical to `main.go`, except that the fallback passed to
`GetSecret` is `fmt.Sprintf("default-for-%s", secretName)`. -/
def getSecretHandlerDup (marshal : MarshalOracle) (w : World)
    (secretGetter : SecretGetter) (rq : Request) : Response × Nat :=
  if rq.method ≠ bs "GET" then
    ({ status := 405, contentType := none, body := [] }, 0)
  else
    let secretName := rq.secretHeader
    if secretName = [] then
      ({ status := 400, contentType := none, body := [] }, 0)
    else
      match marshal secretName
          (GetSecretDup w secretGetter secretName (bs "default-for-" ++ secretName)) with
      | none => ({ status := 500, contentType := none, body := [] }, 1)
      | some bytes =>
        ({ status := 200, contentType := some (bs "application/json"),
           body := bytes }, 1)

/-- The common handler shape, abstracted over the fallback the handler
chooses for a given secret name.  Both source handlers are instances. -/
def getSecretHandlerFb (fb : ByteStr → ByteStr) (marshal : MarshalOracle)
    (w : World) (secretGetter : SecretGetter) (rq : Request) : Response × Nat :=
  if rq.method ≠ bs "GET" then
    ({ status := 405, contentType := none, body := [] }, 0)
  else
    let secretName := rq.secretHeader
    if secretName = [] then
      ({ status := 400, contentType := none, body := [] }, 0)
    else
      match marshal secretName (GetSecret w secretGetter secretName (fb secretName)) with
      | none => ({ status := 500, contentType := none, body := [] }, 1)
      | some bytes =>
        ({ status := 200, contentType := some (bs "application/json"),
           body := bytes }, 1)

/-- A world for concrete instances: the environment maps `FOO` to
`bar`, both upstream endpoints are unreachable. -/
def wEnvFoo : World :=
  { env := fun n => if n = bs "FOO" then some (bs "bar") else none
  , tokenFetch := .netError
  , secretFetch := fun _ _ => .netError }

/-- A world whose upstream endpoints both succeed; the secret payload is
the base64 text `aGVsbG8=` for the bytes of `hello`. -/
def wRemoteOk : World :=
  { env := fun _ => none
  , tokenFetch := .parsed { access_token := some (bs "tok") }
  , secretFetch := fun _ _ => .parsed
      { error := some 0, status := some (bs "ok")
      , payload := some { data := some (bs "aGVsbG8=") } } }

/-- A world whose secret endpoint answers with a non-zero error code. -/
def wRemoteErr : World :=
  { env := fun _ => none
  , tokenFetch := .parsed { access_token := some (bs "tok") }
  , secretFetch := fun _ _ => .parsed
      { error := some 7, status := some (bs "PERMISSION_DENIED"), payload := none } }

/-- A world whose secret endpoint answers with the JSON body consisting
of the empty object: every field absent. -/
def wRemoteEmpty : World :=
  { env := fun _ => none
  , tokenFetch := .parsed { access_token := some (bs "tok") }
  , secretFetch := fun _ _ => .parsed
      { error := none, status := none, payload := none } }

/-- C1.  `GetSecret` is a total function into strings (it is defined for
every name, fallback, environment and upstream behaviour, so it never
raises outward), and its value is fully characterised: in local mode the
environment lookup, and in remote mode the successful remote outcome
when one exists and otherwise — that is, on every internal failure
(network failure at either endpoint, malformed response, non-zero error
code, malformed base64 payload) — exactly the fallback argument. -/
theorem getSecret_total_characterisation (w : World) (sg : SecretGetter)
    (name fallback : ByteStr) :
    GetSecret w sg name fallback =
      if sg.GoogleCloudProject = [] then getEnv w.env name fallback
      else (remoteOutcome w name).getD fallback := by
  unfold GetSecret remoteOutcome
  by_cases hp : sg.GoogleCloudProject = []
  · simp [hp]
  · simp only [hp, if_false]
    cases w.tokenFetch with
    | reqError => rfl
    | netError => rfl
    | readError => rfl
    | jsonError => rfl
    | parsed tr =>
      simp only
      cases w.secretFetch name (tr.access_token.getD []) with
      | reqError => rfl
      | netError => rfl
      | readError => rfl
      | jsonError => rfl
      | parsed sj =>
        simp only
        by_cases he : (unmarshalSecret sj).error ≠ 0
        · simp [he]
        · simp only [he, if_false]
          cases base64Decode (unmarshalSecret sj).payloadData with
          | none => rfl
          | some data => rfl

/-- C2.  In local mode (no project configured) `GetSecret` returns the
value of the environment variable named exactly `name` when set and the
fallback when unset, and the call emits no outbound HTTP request. -/
theorem getSecret_local_mode (w : World) (sg : SecretGetter)
    (name fallback : ByteStr) (hp : sg.GoogleCloudProject = []) :
    GetSecret w sg name fallback = (w.env name).getD fallback ∧
    ((GetSecretT w sg name fallback).2.filter Event.isHttp) = [] := by
  refine ⟨?_, ?_⟩
  · unfold GetSecret getEnv
    simp only [hp, if_true]
    cases w.env name <;> rfl
  · unfold GetSecretT
    simp [hp]

/-- Concrete instance of C2: with `FOO=bar` in the environment the call
returns `bar`, and with `BAZ` unset it returns the fallback; neither
call makes an HTTP request. -/
theorem getSecret_local_mode_witness :
    (GetSecret wEnvFoo ⟨[]⟩ (bs "FOO") (bs "x") = (wEnvFoo.env (bs "FOO")).getD (bs "x") ∧
      ((GetSecretT wEnvFoo ⟨[]⟩ (bs "FOO") (bs "x")).2.filter Event.isHttp) = []) ∧
    (GetSecret wEnvFoo ⟨[]⟩ (bs "BAZ") (bs "x") = (wEnvFoo.env (bs "BAZ")).getD (bs "x") ∧
      ((GetSecretT wEnvFoo ⟨[]⟩ (bs "BAZ") (bs "x")).2.filter Event.isHttp) = []) :=
  ⟨getSecret_local_mode wEnvFoo ⟨[]⟩ (bs "FOO") (bs "x") rfl,
   getSecret_local_mode wEnvFoo ⟨[]⟩ (bs "BAZ") (bs "x") rfl⟩

/-- C3.  In remote mode, when the token fetch parses and the secret
endpoint answers with error field `0` and a payload whose `data` field
is a valid standard base64 encoding of the bytes `b`, `GetSecret`
returns exactly the string of those decoded bytes. -/
theorem getSecret_remote_success (w : World) (sg : SecretGetter)
    (name fallback : ByteStr) (tr : TokenJson) (sj : SecretJson)
    (d : ByteStr) (b : List Nat)
    (hp : sg.GoogleCloudProject ≠ [])
    (ht : w.tokenFetch = .parsed tr)
    (hs : w.secretFetch name (tr.access_token.getD []) = .parsed sj)
    (he : sj.error = some 0)
    (hd : sj.payload = some { data := some d })
    (hb : base64Decode d = some b) :
    GetSecret w sg name fallback = b := by
  unfold GetSecret
  simp [hp, ht, hs, unmarshalSecret, he, hd, hb]

/-- Concrete instance of C3: payload `aGVsbG8=` decodes to `hello`. -/
theorem getSecret_remote_success_witness :
    GetSecret wRemoteOk ⟨bs "my-project"⟩ (bs "FOO") (bs "x") = bs "hello" :=
  getSecret_remote_success wRemoteOk ⟨bs "my-project"⟩ (bs "FOO") (bs "x")
    { access_token := some (bs "tok") }
    { error := some 0, status := some (bs "ok")
    , payload := some { data := some (bs "aGVsbG8=") } }
    (bs "aGVsbG8=") (bs "hello") (by decide) rfl rfl rfl rfl (by decide)

/-- C4.  In remote mode, when the secret response parses to a non-zero
error code, `GetSecret` returns the fallback argument regardless of the
payload contents, and the call logs the formatted line carrying that
code and the status. -/
theorem getSecret_nonzero_error (w : World) (sg : SecretGetter)
    (name fallback : ByteStr) (tr : TokenJson) (sj : SecretJson)
    (hp : sg.GoogleCloudProject ≠ [])
    (ht : w.tokenFetch = .parsed tr)
    (hs : w.secretFetch name (tr.access_token.getD []) = .parsed sj)
    (he : (unmarshalSecret sj).error ≠ 0) :
    (GetSecretT w sg name fallback).1 = fallback ∧
    Event.logErrorStatus (unmarshalSecret sj).error (unmarshalSecret sj).status ∈
      (GetSecretT w sg name fallback).2 := by
  unfold GetSecretT
  simp [hp, ht, hs, he]

/-- Concrete instance of C4: error code 7, status `PERMISSION_DENIED`. -/
theorem getSecret_nonzero_error_witness :
    (GetSecretT wRemoteErr ⟨bs "my-project"⟩ (bs "FOO") (bs "x")).1 = bs "x" ∧
    Event.logErrorStatus 7 (bs "PERMISSION_DENIED") ∈
      (GetSecretT wRemoteErr ⟨bs "my-project"⟩ (bs "FOO") (bs "x")).2 :=
  getSecret_nonzero_error wRemoteErr ⟨bs "my-project"⟩ (bs "FOO") (bs "x")
    { access_token := some (bs "tok") }
    { error := some 7, status := some (bs "PERMISSION_DENIED"), payload := none }
    (by decide) rfl rfl (by decide)

/-- C5, amended.  When the token-fetch HTTP call fails and a project is
configured (remote mode), `GetSecret` returns the fallback; in local
mode the token endpoint is never contacted, so its unreachability
cannot affect the result there. -/
theorem getSecret_token_unreachable (w : World) (sg : SecretGetter)
    (name fallback : ByteStr)
    (hp : sg.GoogleCloudProject ≠ [])
    (ht : w.tokenFetch = .netError) :
    GetSecret w sg name fallback = fallback := by
  unfold GetSecret
  simp [hp, ht]

/-- Concrete instance of the amended C5. -/
theorem getSecret_token_unreachable_witness :
    GetSecret wEnvFoo ⟨bs "my-project"⟩ (bs "FOO") (bs "x") = bs "x" :=
  getSecret_token_unreachable wEnvFoo ⟨bs "my-project"⟩ (bs "FOO") (bs "x")
    (by decide) rfl

/-- Counterexample to C5 as stated: with no project configured, the
environment variable `FOO` set to `bar`, and the token endpoint
unreachable, `GetSecret FOO x` returns `bar`, not the fallback `x` — so
the clause "for every project configuration, including the
configuration where no project is set" fails. -/
theorem getSecret_token_unreachable_counterexample :
    wEnvFoo.tokenFetch = FetchResult.netError ∧
    GetSecret wEnvFoo ⟨[]⟩ (bs "FOO") (bs "x") ≠ bs "x" :=
  ⟨rfl, by decide⟩

/-- C10.  In remote mode, a secret response that parses as JSON with
both the error field and the payload absent (for example the body
consisting of the empty object) is treated as success: the error code
defaults to `0`, `payload.data` defaults to the empty string, which
base64-decodes to zero bytes, so `GetSecret` returns the empty
string. -/
theorem getSecret_empty_object (w : World) (sg : SecretGetter)
    (name fallback : ByteStr) (tr : TokenJson) (sj : SecretJson)
    (hp : sg.GoogleCloudProject ≠ [])
    (ht : w.tokenFetch = .parsed tr)
    (hs : w.secretFetch name (tr.access_token.getD []) = .parsed sj)
    (he : sj.error = none)
    (hd : sj.payload = none) :
    GetSecret w sg name fallback = bs "" := by
  unfold GetSecret
  simp [hp, ht, hs, unmarshalSecret, he, hd, base64Decode, decodeGroups, bs]

/-- Concrete instance of C10: the empty-object response yields the empty
string, not the fallback `x`. -/
theorem getSecret_empty_object_witness :
    GetSecret wRemoteEmpty ⟨bs "my-project"⟩ (bs "FOO") (bs "x") = bs "" :=
  getSecret_empty_object wRemoteEmpty ⟨bs "my-project"⟩ (bs "FOO") (bs "x")
    { access_token := some (bs "tok") }
    { error := none, status := none, payload := none }
    (by decide) rfl rfl rfl rfl

/-- C9.  Any single `GetSecret` call emits at most two outbound HTTP
requests: none in local mode, and in remote mode either no request, the
token request alone, or the token request strictly followed by the
secret request — in particular no request is ever repeated.  Statelessness
across calls is by construction: `GetSecretT` is a pure function of the
per-call world, so no token or secret value can flow from one call to
the next. -/
theorem getSecret_http_calls (w : World) (sg : SecretGetter)
    (name fallback : ByteStr) :
    (sg.GoogleCloudProject = [] →
      ((GetSecretT w sg name fallback).2.filter Event.isHttp) = []) ∧
    (((GetSecretT w sg name fallback).2.filter Event.isHttp) = [] ∨
     ((GetSecretT w sg name fallback).2.filter Event.isHttp) = [Event.httpToken] ∨
     ((GetSecretT w sg name fallback).2.filter Event.isHttp) =
       [Event.httpToken, Event.httpSecret]) := by
  unfold GetSecretT
  by_cases hp : sg.GoogleCloudProject = []
  · simp [hp]
  · simp only [hp, if_false]
    refine ⟨fun h => h.elim, ?_⟩
    cases w.tokenFetch with
    | reqError => simp [Event.isHttp]
    | netError => simp [Event.isHttp]
    | readError => simp [Event.isHttp]
    | jsonError => simp [Event.isHttp]
    | parsed tr =>
      simp only
      cases w.secretFetch name (tr.access_token.getD []) with
      | reqError => simp [Event.isHttp]
      | netError => simp [Event.isHttp]
      | readError => simp [Event.isHttp]
      | jsonError => simp [Event.isHttp]
      | parsed sj =>
        simp only
        by_cases he : (unmarshalSecret sj).error ≠ 0
        · simp [he, Event.isHttp]
        · simp only [he, if_false]
          cases base64Decode (unmarshalSecret sj).payloadData with
          | none => simp [Event.isHttp]
          | some data => simp [Event.isHttp]

/-- Concrete instance of C9: a local-mode call makes no HTTP request. -/
theorem getSecret_http_calls_witness :
    ((GetSecretT wEnvFoo ⟨[]⟩ (bs "FOO") (bs "x")).2.filter Event.isHttp) = [] :=
  (getSecret_http_calls wEnvFoo ⟨[]⟩ (bs "FOO") (bs "x")).1 rfl

/-- A plain ASCII byte is emitted unchanged by the encoder. -/
theorem jsonEscapeByte_plain (b : Nat) (h : plainByte b) :
    jsonEscapeByte b = [b] := by
  obtain ⟨h1, h7, h2, h3, h4, h5, h6⟩ := h
  have h10 : b ≠ 10 := by omega
  have h13 : b ≠ 13 := by omega
  have h9 : b ≠ 9 := by omega
  have hc : ¬ (b < 32 ∨ b = 60 ∨ b = 62 ∨ b = 38) := by omega
  unfold jsonEscapeByte
  simp [h2, h3, h10, h13, h9, hc]

/-- A string of plain ASCII bytes is emitted unchanged by the
encoder. -/
theorem jsonEscape_plain (s : ByteStr) (h : ∀ b ∈ s, plainByte b) :
    jsonEscape s = s := by
  induction s with
  | nil => rfl
  | cons a t ih =>
    have ha : plainByte a := h a (List.mem_cons_self a t)
    have ht : ∀ b ∈ t, plainByte b := fun b hb => h b (List.mem_cons_of_mem a hb)
    unfold jsonEscape at *
    simp [jsonEscapeByte_plain a ha, ih ht]

/-- C6.  A `GET` request to the endpoint carrying a non-empty `secret`
header `X` whose resolution (with the handler's fallback `default`)
yields `V` is answered with status 200, `Content-Type`
`application/json`, and — when `X` and `V` consist of plain ASCII
bytes, which the JSON string encoder passes through unchanged, so that
the quoted form is literal — body exactly the object with `name` field
`X` and `value` field `V`. -/
theorem handler_success (w : World) (sg : SecretGetter) (rq : Request)
    (V : ByteStr)
    (hm : rq.method = bs "GET")
    (hn : rq.secretHeader ≠ [])
    (hx : ∀ b ∈ rq.secretHeader, plainByte b)
    (hv : ∀ b ∈ V, plainByte b)
    (hres : GetSecret w sg rq.secretHeader (bs "default") = V) :
    getSecretHandler jsonMarshalOk w sg rq =
      ({ status := 200, contentType := some (bs "application/json")
       , body := bs "\x7b\"name\":\"" ++ rq.secretHeader ++
           bs "\",\"value\":\"" ++ V ++ bs "\"\x7d" }, 1) := by
  unfold getSecretHandler
  simp only [hm, hres, ne_eq, not_true_eq_false, if_false, hn, jsonMarshalOk,
    jsonMarshalNameValue, jsonEscape_plain rq.secretHeader hx, jsonEscape_plain V hv]

/-- Concrete instance of C6: header `X` resolving (via the local
environment) to `V` produces the literal JSON body. -/
theorem handler_success_witness :
    getSecretHandler jsonMarshalOk
      { env := fun n => if n = bs "X" then some (bs "V") else none
      , tokenFetch := .netError, secretFetch := fun _ _ => .netError }
      ⟨[]⟩ ⟨bs "GET", bs "X"⟩ =
      ({ status := 200, contentType := some (bs "application/json")
       , body := bs "\x7b\"name\":\"" ++ bs "X" ++
           bs "\",\"value\":\"" ++ bs "V" ++ bs "\"\x7d" }, 1) :=
  handler_success _ ⟨[]⟩ ⟨bs "GET", bs "X"⟩ (bs "V") rfl (by decide)
    (by decide) (by decide) (by decide)

/-- The always-failing `json.Marshal` oracle, for exercising the
handler's encoding-failure branch. -/
def marshalFail : MarshalOracle := fun _ _ => none

/-- C7, amended.  A non-`GET` request is answered 405 with empty body
and the resolver is not invoked; a `GET` request with absent or empty
`secret` header is answered 400 with empty body and the resolver is not
invoked; and when the `json.Marshal` call fails the request is answered
500 with empty body, the resolver having already been invoked once —
the source computes the resolved value before encoding it. -/
theorem handler_error_cases (marshal : MarshalOracle) (w : World)
    (sg : SecretGetter) (rq : Request) :
    (rq.method ≠ bs "GET" →
      getSecretHandler marshal w sg rq =
        ({ status := 405, contentType := none, body := [] }, 0)) ∧
    (rq.method = bs "GET" → rq.secretHeader = [] →
      getSecretHandler marshal w sg rq =
        ({ status := 400, contentType := none, body := [] }, 0)) ∧
    (rq.method = bs "GET" → rq.secretHeader ≠ [] →
      marshal rq.secretHeader (GetSecret w sg rq.secretHeader (bs "default")) = none →
      getSecretHandler marshal w sg rq =
        ({ status := 500, contentType := none, body := [] }, 1)) := by
  refine ⟨fun hm => ?_, fun hm hn => ?_, fun hm hn hmar => ?_⟩
  · unfold getSecretHandler
    simp [hm]
  · unfold getSecretHandler
    simp [hm, hn]
  · unfold getSecretHandler
    simp [hm, hn, hmar]

/-- Concrete instances of the amended C7: a `POST` is answered 405, a
`GET` without the header 400, and a `GET` whose marshal call fails 500
with the resolver invoked once — each with empty body. -/
theorem handler_error_cases_witness :
    getSecretHandler marshalFail wEnvFoo ⟨[]⟩ ⟨bs "POST", bs "FOO"⟩ =
      ({ status := 405, contentType := none, body := [] }, 0) ∧
    getSecretHandler marshalFail wEnvFoo ⟨[]⟩ ⟨bs "GET", []⟩ =
      ({ status := 400, contentType := none, body := [] }, 0) ∧
    getSecretHandler marshalFail wEnvFoo ⟨[]⟩ ⟨bs "GET", bs "FOO"⟩ =
      ({ status := 500, contentType := none, body := [] }, 1) :=
  ⟨(handler_error_cases marshalFail wEnvFoo ⟨[]⟩ ⟨bs "POST", bs "FOO"⟩).1 (by decide),
   (handler_error_cases marshalFail wEnvFoo ⟨[]⟩ ⟨bs "GET", []⟩).2.1 rfl rfl,
   (handler_error_cases marshalFail wEnvFoo ⟨[]⟩ ⟨bs "GET", bs "FOO"⟩).2.2 rfl
     (by decide) rfl⟩

/-- Counterexample to C7 as stated: in the encoding-failure error case
the response is 500, yet the resolver has been invoked (the invocation
count is not zero), contradicting "in all three error cases ... the
resolver is never invoked". -/
theorem handler_error_cases_counterexample :
    (getSecretHandler marshalFail wEnvFoo ⟨[]⟩ ⟨bs "GET", bs "FOO"⟩).1.status = 500 ∧
    (getSecretHandler marshalFail wEnvFoo ⟨[]⟩ ⟨bs "GET", bs "FOO"⟩).2 ≠ 0 := by
  decide

/-- C8.  The two source files' `GetSecret` functions agree on every
input, and each file's handler is the common handler shape instantiated
with that file's fallback choice — the literal `default` in `main.go`
and the name-derived `default-for-<name>` in the duplicate — so the two
handlers differ only in the fallback argument passed to `GetSecret`. -/
theorem duplicate_files_equivalence :
    (∀ (w : World) (sg : SecretGetter) (name fallback : ByteStr),
      GetSecretDup w sg name fallback = GetSecret w sg name fallback) ∧
    (∀ (marshal : MarshalOracle) (w : World) (sg : SecretGetter) (rq : Request),
      getSecretHandler marshal w sg rq =
        getSecretHandlerFb (fun _ => bs "default") marshal w sg rq) ∧
    (∀ (marshal : MarshalOracle) (w : World) (sg : SecretGetter) (rq : Request),
      getSecretHandlerDup marshal w sg rq =
        getSecretHandlerFb (fun n => bs "default-for-" ++ n) marshal w sg rq) :=
  ⟨fun _ _ _ _ => rfl, fun _ _ _ _ => rfl, fun _ _ _ _ => rfl⟩
